import Mathlib

/-!
Shallow embedding of `src/ray/gcs/gcs_server/actor_info_handler_impl.cc`
(the `DefaultActorInfoHandler` request handlers of the GCS actor directory
RPC gateway).

Modelling conventions:
* Protobuf byte strings are `List Nat` (byte values).
* `Status` is the tagged outcome type; only the constructors the handlers
  produce or inspect are modelled (`ok`, plus error kinds carrying a message).
* Each registry / manager delegate is asynchronous: a call either returns a
  failed `Status` synchronously (no callback is invoked by the client) or
  returns `ok` and later invokes the supplied callback exactly once.  A
  handler execution is therefore determined by the request together with the
  delegate's synchronous return `Status` and, when that is `ok`, the
  arguments the delegate later passes to the callback.  Those are explicit
  parameters of each embedded handler.
* A handler execution is reflected as its trace of observable effects, in
  order: `delegateCall` (the moment a registry/manager delegate is invoked),
  `publish channel key payload` (a pub-sub notification), and
  `sendReply reply status` (the terminal call handing `(reply, status)` to
  the reply-sending collaborator, `GCS_RPC_SEND_REPLY` in the source).
* A fatal assertion (`RAY_CHECK`, `RAY_CHECK_OK`, or the `RAY_DCHECK` that
  guards a dereference of an absent optional) aborts the process: handlers
  with such paths return `Option (List (Event ρ))`, `none` meaning the
  execution aborted with no (further) observable completion.
-/

/-- Outcome type used uniformly across all operations: `ok` or an error kind
carrying a message (mirrors `ray::Status`). -/
inductive Status where
  | ok
  | notFound (msg : String)
  | ioError (msg : String)
  | invalid (msg : String)
  deriving DecidableEq, Repr

/-- `Status::ok()` of the source: true exactly on the `ok` constructor. -/
def Status.isOk : Status → Bool
  | .ok => true
  | _ => false

/-- Fixed-size binary actor identifier (`ActorID`); the binary payload is the
byte list. -/
structure ActorID where
  binary : List Nat
  deriving DecidableEq, Repr

/-- `ActorID::FromBinary`: wraps the binary representation. -/
def ActorID.fromBinary (b : List Nat) : ActorID := ⟨b⟩

/-- Modelled from the spec: the byte length of the fixed-size `ActorID`
(`kActorIDSize` lives outside this repository slice; the exact value is
irrelevant to the handlers, which only compare against the nil sentinel). -/
def kActorIDSize : Nat := 16

/-- Modelled from the spec: the nil sentinel `ActorID::Nil()` returned by
name resolution when a name is absent (a fixed-size identifier filled with
the sentinel byte 0xFF, per the base-ID convention of the repository). -/
def ActorID.nilId : ActorID := ⟨List.replicate kActorIDSize 255⟩

/-- `ActorID::IsNil()`: equality with the nil sentinel. -/
def ActorID.isNil (a : ActorID) : Bool := a = ActorID.nilId

/-- Lower-case hexadecimal digit for a value below 16. -/
def hexDigit (n : Nat) : Char :=
  if n < 10 then Char.ofNat (48 + n) else Char.ofNat (87 + n)

/-- Modelled from the spec: `ActorID::Hex()` (outside this slice) encodes
each byte as two lower-case hexadecimal characters, in byte order. -/
def ActorID.hex (a : ActorID) : String :=
  ⟨a.binary.foldr (fun b acc => hexDigit (b / 16 % 16) :: hexDigit (b % 16) :: acc) []⟩

/-- Full actor metadata record (`ActorTableData`): opaque to this core apart
from the embedded binary `actor_id`; the rest is an opaque payload. -/
structure ActorTableData where
  actor_id : List Nat := []
  payload : List Nat := []
  deriving DecidableEq, Repr

/-- Modelled from the spec: protobuf `SerializeAsString` (outside this
slice), an opaque serialization of the record; a length-prefixed
concatenation of its fields. -/
def ActorTableData.serializeAsString (d : ActorTableData) : List Nat :=
  d.actor_id.length :: d.actor_id ++ d.payload

/-- Opaque checkpoint record (`ActorCheckpointData`) with its embedded
binary identifiers. -/
structure ActorCheckpointData where
  actor_id : List Nat := []
  checkpoint_id : List Nat := []
  payload : List Nat := []
  deriving DecidableEq, Repr

/-- Opaque record mapping an actor to its known checkpoint IDs
(`ActorCheckpointIdData`). -/
structure ActorCheckpointIdData where
  payload : List Nat := []
  deriving DecidableEq, Repr

/-- Opaque actor handle (`gcs::GcsActor`) passed to the create-actor
registration callback; the handler only logs it. -/
structure GcsActor where
  data : List Nat := []
  deriving DecidableEq, Repr

/-- Modelled from the spec: the actor-change pub-sub channel constant
(`ACTOR_CHANNEL`, defined outside this slice). -/
def ACTOR_CHANNEL : String := "ACTOR"

/-- Task type tag of a task specification; the create-actor handler checks
it equals `ACTOR_CREATION_TASK`. -/
inductive TaskType where
  | NORMAL_TASK
  | ACTOR_CREATION_TASK
  | ACTOR_TASK
  deriving DecidableEq, Repr

/-- The slice of `ActorCreationTaskSpec` the handler reads: the embedded
binary actor id. -/
structure ActorCreationTaskSpec where
  actor_id : List Nat := []
  deriving DecidableEq, Repr

/-- The slice of `TaskSpec` the handler reads: its type tag and the
actor-creation sub-spec. -/
structure TaskSpec where
  type : TaskType := TaskType.NORMAL_TASK
  actor_creation_task_spec : ActorCreationTaskSpec := {}
  deriving DecidableEq, Repr

/-- `CreateActorRequest`: carries the actor-creation task specification. -/
structure CreateActorRequest where
  task_spec : TaskSpec := {}
  deriving DecidableEq, Repr

/-- `CreateActorReply`: the handler never populates any field, so the
message stays at its default; the opaque field records that. -/
structure CreateActorReply where
  fields : List Nat := []
  deriving DecidableEq, Repr

/-- `GetActorInfoRequest`: the binary actor id to look up. -/
structure GetActorInfoRequest where
  actor_id : List Nat := []
  deriving DecidableEq, Repr

/-- `GetActorInfoReply`: optional `actor_table_data` payload (`none` is the
unset / empty sub-message). -/
structure GetActorInfoReply where
  actor_table_data : Option ActorTableData := none
  deriving DecidableEq, Repr

/-- `GetAllActorInfoRequest`: no fields are read by the handler. -/
structure GetAllActorInfoRequest where
  fields : List Nat := []
  deriving DecidableEq, Repr

/-- `GetAllActorInfoReply`: repeated `actor_table_data` records. -/
structure GetAllActorInfoReply where
  actor_table_data : List ActorTableData := []
  deriving DecidableEq, Repr

/-- `GetNamedActorInfoRequest`: the human-readable actor name. -/
structure GetNamedActorInfoRequest where
  name : String := ""
  deriving DecidableEq, Repr

/-- `GetNamedActorInfoReply`: optional `actor_table_data` payload. -/
structure GetNamedActorInfoReply where
  actor_table_data : Option ActorTableData := none
  deriving DecidableEq, Repr

/-- `RegisterActorInfoRequest`: the full record to register. -/
structure RegisterActorInfoRequest where
  actor_table_data : ActorTableData := {}
  deriving DecidableEq, Repr

/-- `RegisterActorInfoReply`: the handler populates no field. -/
structure RegisterActorInfoReply where
  fields : List Nat := []
  deriving DecidableEq, Repr

/-- `UpdateActorInfoRequest`: target binary actor id plus the new record. -/
structure UpdateActorInfoRequest where
  actor_id : List Nat := []
  actor_table_data : ActorTableData := {}
  deriving DecidableEq, Repr

/-- `UpdateActorInfoReply`: the handler populates no field. -/
structure UpdateActorInfoReply where
  fields : List Nat := []
  deriving DecidableEq, Repr

/-- `AddActorCheckpointRequest`: the checkpoint record to add. -/
structure AddActorCheckpointRequest where
  checkpoint_data : ActorCheckpointData := {}
  deriving DecidableEq, Repr

/-- `AddActorCheckpointReply`: the handler populates no field. -/
structure AddActorCheckpointReply where
  fields : List Nat := []
  deriving DecidableEq, Repr

/-- `GetActorCheckpointRequest`: binary actor id and checkpoint id. -/
structure GetActorCheckpointRequest where
  actor_id : List Nat := []
  checkpoint_id : List Nat := []
  deriving DecidableEq, Repr

/-- `GetActorCheckpointReply`: optional `checkpoint_data` payload. -/
structure GetActorCheckpointReply where
  checkpoint_data : Option ActorCheckpointData := none
  deriving DecidableEq, Repr

/-- `GetActorCheckpointIDRequest`: the binary actor id. -/
structure GetActorCheckpointIDRequest where
  actor_id : List Nat := []
  deriving DecidableEq, Repr

/-- `GetActorCheckpointIDReply`: optional `checkpoint_id_data` payload. -/
structure GetActorCheckpointIDReply where
  checkpoint_id_data : Option ActorCheckpointIdData := none
  deriving DecidableEq, Repr

/-- One observable effect of a handler execution, in trace order:
the invocation of the registry/manager delegate, a pub-sub publish, or the
terminal hand-off of `(reply, status)` to the reply-sending collaborator. -/
inductive Event (ρ : Type) where
  | delegateCall
  | publish (channel : String) (key : String) (payload : List Nat)
  | sendReply (reply : ρ) (status : Status)
  deriving DecidableEq, Repr

/-- The `(reply, status)` pairs handed to the reply-sending collaborator
along a trace. -/
def replyEvents {ρ : Type} (t : List (Event ρ)) : List (ρ × Status) :=
  t.filterMap fun e =>
    match e with
    | .sendReply r s => some (r, s)
    | _ => none

/-- The pub-sub notifications `(channel, key, payload)` along a trace. -/
def publishEvents {ρ : Type} (t : List (Event ρ)) : List (String × String × List Nat) :=
  t.filterMap fun e =>
    match e with
    | .publish c k p => some (c, k, p)
    | _ => none

/-- The reply-sending callback fires exactly once along the trace. -/
def RepliesExactlyOnce {ρ : Type} (t : List (Event ρ)) : Prop :=
  (replyEvents t).length = 1

/-- `RepliesExactlyOnce` on every non-aborting execution of a handler that
has fatal-assertion paths (`none` is an aborted process, which never
completes the request at all). -/
def OptRepliesExactlyOnce {ρ : Type} : Option (List (Event ρ)) → Prop
  | some t => RepliesExactlyOnce t
  | none => True

/-- Shallow embedding of `DefaultActorInfoHandler::HandleGetActorInfo`
(lines 41-64).  `asyncGetStatus` is the synchronous return of
`Actors().AsyncGet`; when it is `ok` the registry later invokes `on_done`
with `(cbStatus, cbResult)`, otherwise the handler invokes `on_done`
inline with `(asyncGetStatus, none)`. -/
def HandleGetActorInfo (request : GetActorInfoRequest) (asyncGetStatus : Status)
    (cbStatus : Status) (cbResult : Option ActorTableData) :
    List (Event GetActorInfoReply) :=
  let _actor_id := ActorID.fromBinary request.actor_id
  let reply : GetActorInfoReply := {}
  let on_done : Status → Option ActorTableData → Event GetActorInfoReply :=
    fun _status result =>
      let reply :=
        match result with
        | some r => { reply with actor_table_data := some r }
        | none => reply
      Event.sendReply reply Status.ok
  if asyncGetStatus.isOk then
    [Event.delegateCall, on_done cbStatus cbResult]
  else
    [Event.delegateCall, on_done asyncGetStatus none]

/-- Shallow embedding of `DefaultActorInfoHandler::HandleGetAllActorInfo`
(lines 66-84): full scan; `on_done` appends every returned record in store
order and always replies `Status::OK()`. -/
def HandleGetAllActorInfo (_request : GetAllActorInfoRequest)
    (asyncGetAllStatus : Status) (cbStatus : Status)
    (cbResult : List ActorTableData) : List (Event GetAllActorInfoReply) :=
  let reply : GetAllActorInfoReply := {}
  let on_done : Status → List ActorTableData → Event GetAllActorInfoReply :=
    fun _status result =>
      Event.sendReply { reply with actor_table_data := reply.actor_table_data ++ result }
        Status.ok
  if asyncGetAllStatus.isOk then
    [Event.delegateCall, on_done cbStatus cbResult]
  else
    [Event.delegateCall, on_done asyncGetAllStatus []]

/-- The single-quote character (code point 39), used in the named-actor
not-found message. -/
def singleQuote : String := String.singleton (Char.ofNat 39)

/-- The message the named-actor handler builds for an unresolved name:
`Actor with name (quote)name(quote) was not found.` (lines 111-112). -/
def namedActorNotFoundMsg (name : String) : String :=
  "Actor with name " ++ singleQuote ++ name ++ singleQuote ++ " was not found."

/-- Shallow embedding of `DefaultActorInfoHandler::HandleGetNamedActorInfo`
(lines 86-123).  `resolvedId` is the synchronous result of
`gcs_actor_manager_.GetActorIDByName(request.name)`.  If it is nil the
handler invokes `on_done` with a `NotFound` status and never calls the
registry; otherwise `asyncGetStatus`, `cbStatus`, `cbResult` play the same
roles as in `HandleGetActorInfo`, except that `on_done` forwards the
completion status to the reply. -/
def HandleGetNamedActorInfo (request : GetNamedActorInfoRequest)
    (resolvedId : ActorID) (asyncGetStatus : Status) (cbStatus : Status)
    (cbResult : Option ActorTableData) : List (Event GetNamedActorInfoReply) :=
  let name := request.name
  let reply : GetNamedActorInfoReply := {}
  let on_done : Status → Option ActorTableData → Event GetNamedActorInfoReply :=
    fun status result =>
      let reply :=
        if status.isOk then
          match result with
          | some r => { reply with actor_table_data := some r }
          | none => reply
        else
          reply
      Event.sendReply reply status
  let actor_id := resolvedId
  if actor_id.isNil then
    [on_done (Status.notFound (namedActorNotFoundMsg name)) none]
  else
    if asyncGetStatus.isOk then
      [Event.delegateCall, on_done cbStatus cbResult]
    else
      [Event.delegateCall, on_done asyncGetStatus none]

/-- Shallow embedding of `DefaultActorInfoHandler::HandleRegisterActorInfo`
(lines 124-150).  The record is deep-copied from the request before the
asynchronous call.  `on_done` publishes the serialized copy on the actor
channel keyed by the hex actor id when the completion status is `ok`
(`RAY_CHECK_OK` around the publish: a failed `publishStatus` aborts the
process, hence `none`), then hands the completion status to the
reply-sending collaborator. -/
def HandleRegisterActorInfo (request : RegisterActorInfoRequest)
    (asyncRegisterStatus : Status) (cbStatus : Status) (publishStatus : Status) :
    Option (List (Event RegisterActorInfoReply)) :=
  let actor_id := ActorID.fromBinary request.actor_table_data.actor_id
  let actor_table_data := request.actor_table_data
  let on_done : Status → Option (List (Event RegisterActorInfoReply)) :=
    fun status =>
      if !status.isOk then
        some [Event.sendReply {} status]
      else
        if publishStatus.isOk then
          some [Event.publish ACTOR_CHANNEL actor_id.hex
                  actor_table_data.serializeAsString,
                Event.sendReply {} status]
        else
          none
  if asyncRegisterStatus.isOk then
    (on_done cbStatus).map (fun evs => Event.delegateCall :: evs)
  else
    (on_done asyncRegisterStatus).map (fun evs => Event.delegateCall :: evs)

/-- Shallow embedding of `DefaultActorInfoHandler::HandleUpdateActorInfo`
(lines 152-178): identical shape to register, but the target id comes from
the request's separate `actor_id` field and the delegate is `AsyncUpdate`. -/
def HandleUpdateActorInfo (request : UpdateActorInfoRequest)
    (asyncUpdateStatus : Status) (cbStatus : Status) (publishStatus : Status) :
    Option (List (Event UpdateActorInfoReply)) :=
  let actor_id := ActorID.fromBinary request.actor_id
  let actor_table_data := request.actor_table_data
  let on_done : Status → Option (List (Event UpdateActorInfoReply)) :=
    fun status =>
      if !status.isOk then
        some [Event.sendReply {} status]
      else
        if publishStatus.isOk then
          some [Event.publish ACTOR_CHANNEL actor_id.hex
                  actor_table_data.serializeAsString,
                Event.sendReply {} status]
        else
          none
  if asyncUpdateStatus.isOk then
    (on_done cbStatus).map (fun evs => Event.delegateCall :: evs)
  else
    (on_done asyncUpdateStatus).map (fun evs => Event.delegateCall :: evs)

/-- Shallow embedding of `DefaultActorInfoHandler::HandleCreateActor`
(lines 21-39).  `RAY_CHECK` on the task type is a fatal precondition
(`none` when violated).  `registerStatus` is the synchronous return of
`gcs_actor_manager_.RegisterActor`; when it is `ok` the manager later
invokes the registration callback with the constructed `actor` handle,
which the handler only logs before replying `Status::OK()`; otherwise the
handler replies with the failed status directly. -/
def HandleCreateActor (request : CreateActorRequest) (registerStatus : Status)
    (actor : GcsActor) : Option (List (Event CreateActorReply)) :=
  if request.task_spec.type = TaskType.ACTOR_CREATION_TASK then
    let _actor_id :=
      ActorID.fromBinary request.task_spec.actor_creation_task_spec.actor_id
    let _handle := actor
    some <|
      if registerStatus.isOk then
        [Event.delegateCall, Event.sendReply {} Status.ok]
      else
        [Event.delegateCall, Event.sendReply {} registerStatus]
  else
    none

/-- Shallow embedding of `DefaultActorInfoHandler::HandleAddActorCheckpoint`
(lines 180-207): forwards the deep-copied checkpoint record to
`AsyncAddCheckpoint` and completes with the resulting status only. -/
def HandleAddActorCheckpoint (request : AddActorCheckpointRequest)
    (asyncAddStatus : Status) (cbStatus : Status) :
    List (Event AddActorCheckpointReply) :=
  let _actor_checkpoint_data := request.checkpoint_data
  let on_done : Status → Event AddActorCheckpointReply :=
    fun status => Event.sendReply {} status
  if asyncAddStatus.isOk then
    [Event.delegateCall, on_done cbStatus]
  else
    [Event.delegateCall, on_done asyncAddStatus]

/-- Shallow embedding of `DefaultActorInfoHandler::HandleGetActorCheckpoint`
(lines 209-238).  In the `ok` branch `on_done` asserts the optional result
is present (`RAY_DCHECK(result)`) and dereferences it to fill the reply;
an absent result there is the aborted execution `none`.  The completion
status is forwarded to the reply in both branches. -/
def HandleGetActorCheckpoint (request : GetActorCheckpointRequest)
    (asyncGetStatus : Status) (cbStatus : Status)
    (cbResult : Option ActorCheckpointData) :
    Option (List (Event GetActorCheckpointReply)) :=
  let _ids := (request.actor_id, request.checkpoint_id)
  let reply : GetActorCheckpointReply := {}
  let on_done : Status → Option ActorCheckpointData →
      Option (Event GetActorCheckpointReply) :=
    fun status result =>
      if status.isOk then
        match result with
        | some r =>
            some (Event.sendReply { reply with checkpoint_data := some r } status)
        | none => none
      else
        some (Event.sendReply reply status)
  if asyncGetStatus.isOk then
    (on_done cbStatus cbResult).map (fun e => [Event.delegateCall, e])
  else
    (on_done asyncGetStatus none).map (fun e => [Event.delegateCall, e])

/-- Shallow embedding of
`DefaultActorInfoHandler::HandleGetActorCheckpointID` (lines 240-265):
same shape as `HandleGetActorCheckpoint`, keyed by the actor id alone. -/
def HandleGetActorCheckpointID (request : GetActorCheckpointIDRequest)
    (asyncGetStatus : Status) (cbStatus : Status)
    (cbResult : Option ActorCheckpointIdData) :
    Option (List (Event GetActorCheckpointIDReply)) :=
  let _actor_id := ActorID.fromBinary request.actor_id
  let reply : GetActorCheckpointIDReply := {}
  let on_done : Status → Option ActorCheckpointIdData →
      Option (Event GetActorCheckpointIDReply) :=
    fun status result =>
      if status.isOk then
        match result with
        | some r =>
            some (Event.sendReply { reply with checkpoint_id_data := some r } status)
        | none => none
      else
        some (Event.sendReply reply status)
  if asyncGetStatus.isOk then
    (on_done cbStatus cbResult).map (fun e => [Event.delegateCall, e])
  else
    (on_done asyncGetStatus none).map (fun e => [Event.delegateCall, e])

/-- The completion status a handler's `on_done` is invoked with: the
callback status when the delegate accepted the call, the synchronous
failure status otherwise. -/
def effectiveStatus (syncStatus cbStatus : Status) : Status :=
  if syncStatus.isOk then cbStatus else syncStatus

/-- C1: every one of the nine handlers hands `(reply, status)` to the
reply-sending collaborator exactly once per request, on every
(non-aborting) execution path: immediate synchronous failure, nil-name
short-circuit, and deferred callback completion alike. -/
theorem c1_reply_sent_exactly_once :
    (∀ req s a, OptRepliesExactlyOnce (HandleCreateActor req s a)) ∧
    (∀ req s cb r, RepliesExactlyOnce (HandleGetActorInfo req s cb r)) ∧
    (∀ req s cb r, RepliesExactlyOnce (HandleGetAllActorInfo req s cb r)) ∧
    (∀ req id s cb r, RepliesExactlyOnce (HandleGetNamedActorInfo req id s cb r)) ∧
    (∀ req s cb p, OptRepliesExactlyOnce (HandleRegisterActorInfo req s cb p)) ∧
    (∀ req s cb p, OptRepliesExactlyOnce (HandleUpdateActorInfo req s cb p)) ∧
    (∀ req s cb, RepliesExactlyOnce (HandleAddActorCheckpoint req s cb)) ∧
    (∀ req s cb r, OptRepliesExactlyOnce (HandleGetActorCheckpoint req s cb r)) ∧
    (∀ req s cb r, OptRepliesExactlyOnce (HandleGetActorCheckpointID req s cb r)) := by
  refine ⟨?_, ?_, ?_, ?_, ?_, ?_, ?_, ?_, ?_⟩
  · intro req s a
    by_cases h : req.task_spec.type = TaskType.ACTOR_CREATION_TASK <;>
      cases s <;>
        simp [HandleCreateActor, OptRepliesExactlyOnce, RepliesExactlyOnce,
          replyEvents, Status.isOk, h]
  · intro req s cb r
    cases s <;> cases r <;>
      simp [HandleGetActorInfo, RepliesExactlyOnce, replyEvents, Status.isOk]
  · intro req s cb r
    cases s <;>
      simp [HandleGetAllActorInfo, RepliesExactlyOnce, replyEvents, Status.isOk]
  · intro req id s cb r
    by_cases h : id.isNil <;> cases s <;> cases cb <;> cases r <;>
      simp [HandleGetNamedActorInfo, RepliesExactlyOnce, replyEvents,
        Status.isOk, h]
  · intro req s cb p
    cases s <;> cases cb <;> cases p <;>
      simp [HandleRegisterActorInfo, OptRepliesExactlyOnce, RepliesExactlyOnce,
        replyEvents, Status.isOk]
  · intro req s cb p
    cases s <;> cases cb <;> cases p <;>
      simp [HandleUpdateActorInfo, OptRepliesExactlyOnce, RepliesExactlyOnce,
        replyEvents, Status.isOk]
  · intro req s cb
    cases s <;>
      simp [HandleAddActorCheckpoint, RepliesExactlyOnce, replyEvents, Status.isOk]
  · intro req s cb r
    cases s <;> cases cb <;> cases r <;>
      simp [HandleGetActorCheckpoint, OptRepliesExactlyOnce, RepliesExactlyOnce,
        replyEvents, Status.isOk]
  · intro req s cb r
    cases s <;> cases cb <;> cases r <;>
      simp [HandleGetActorCheckpointID, OptRepliesExactlyOnce, RepliesExactlyOnce,
        replyEvents, Status.isOk]
/-- C2: for register/update, when the registry operation completes `ok`
(and the publish succeeds, so the `RAY_CHECK_OK` does not abort), the trace
is exactly: delegate call, one publish on the actor channel keyed by the
hex-encoded `ActorID` with the serialized deep-copied record as payload,
then the reply with the `ok` status — the publish strictly precedes the
reply.  When the operation completes with a non-`ok` status, no publish
occurs and that status is the reply's status. -/
theorem c2_register_update_publish :
    (∀ (req : RegisterActorInfoRequest) (s cb : Status),
      effectiveStatus s cb = Status.ok →
        HandleRegisterActorInfo req s cb Status.ok =
          some [Event.delegateCall,
                Event.publish ACTOR_CHANNEL
                  (ActorID.fromBinary req.actor_table_data.actor_id).hex
                  req.actor_table_data.serializeAsString,
                Event.sendReply {} Status.ok]) ∧
    (∀ (req : RegisterActorInfoRequest) (s cb p : Status),
      (effectiveStatus s cb).isOk = false →
        HandleRegisterActorInfo req s cb p =
          some [Event.delegateCall, Event.sendReply {} (effectiveStatus s cb)]) ∧
    (∀ (req : UpdateActorInfoRequest) (s cb : Status),
      effectiveStatus s cb = Status.ok →
        HandleUpdateActorInfo req s cb Status.ok =
          some [Event.delegateCall,
                Event.publish ACTOR_CHANNEL
                  (ActorID.fromBinary req.actor_id).hex
                  req.actor_table_data.serializeAsString,
                Event.sendReply {} Status.ok]) ∧
    (∀ (req : UpdateActorInfoRequest) (s cb p : Status),
      (effectiveStatus s cb).isOk = false →
        HandleUpdateActorInfo req s cb p =
          some [Event.delegateCall, Event.sendReply {} (effectiveStatus s cb)]) := by
  refine ⟨?_, ?_, ?_, ?_⟩ <;> intro req s cb <;> intros <;>
    cases s <;> cases cb <;>
      simp_all [HandleRegisterActorInfo, HandleUpdateActorInfo,
        effectiveStatus, Status.isOk]

/-- C2 witness: a concrete successful registration publishes once, keyed by
the hex id, and then replies `ok`. -/
theorem c2_register_update_publish_witness :
    HandleRegisterActorInfo ⟨⟨[1], [2]⟩⟩ Status.ok Status.ok Status.ok =
      some [Event.delegateCall,
            Event.publish ACTOR_CHANNEL (ActorID.fromBinary [1]).hex
              (ActorTableData.serializeAsString ⟨[1], [2]⟩),
            Event.sendReply {} Status.ok] :=
  c2_register_update_publish.1 ⟨⟨[1], [2]⟩⟩ Status.ok Status.ok rfl

/-- C3 counterexample: the claim says a failed registry Status is always
the Status passed to the reply-sending callback, but `HandleGetActorInfo`
whose `AsyncGet` fails synchronously with an `ioError` replies `ok`:
the failed status is discarded. -/
theorem c3_counterexample_get_actor_info_discards_failure :
    replyEvents (HandleGetActorInfo ⟨[1]⟩ (Status.ioError "registry unavailable")
        Status.ok none) =
      [({ actor_table_data := none }, Status.ok)] ∧
    Status.ok ≠ Status.ioError "registry unavailable" := by
  exact ⟨rfl, by decide⟩

/-- C3 amended: for every handler other than `HandleGetActorInfo` and
`HandleGetAllActorInfo` (which always reply `ok`, discarding a failed
registry status), a failed delegate Status — returned synchronously or
delivered through the callback — is exactly the Status passed to the
reply-sending callback. -/
theorem c3_amended_failed_status_forwarded :
    (∀ (req : CreateActorRequest) (s : Status) (a : GcsActor),
      req.task_spec.type = TaskType.ACTOR_CREATION_TASK → s.isOk = false →
        HandleCreateActor req s a =
          some [Event.delegateCall, Event.sendReply {} s]) ∧
    (∀ (req : GetNamedActorInfoRequest) (id : ActorID) (s cb : Status)
        (r : Option ActorTableData),
      id.isNil = false → (effectiveStatus s cb).isOk = false →
        HandleGetNamedActorInfo req id s cb r =
          [Event.delegateCall, Event.sendReply {} (effectiveStatus s cb)]) ∧
    (∀ (req : RegisterActorInfoRequest) (s cb p : Status),
      (effectiveStatus s cb).isOk = false →
        HandleRegisterActorInfo req s cb p =
          some [Event.delegateCall, Event.sendReply {} (effectiveStatus s cb)]) ∧
    (∀ (req : UpdateActorInfoRequest) (s cb p : Status),
      (effectiveStatus s cb).isOk = false →
        HandleUpdateActorInfo req s cb p =
          some [Event.delegateCall, Event.sendReply {} (effectiveStatus s cb)]) ∧
    (∀ (req : AddActorCheckpointRequest) (s cb : Status),
      (effectiveStatus s cb).isOk = false →
        HandleAddActorCheckpoint req s cb =
          [Event.delegateCall, Event.sendReply {} (effectiveStatus s cb)]) ∧
    (∀ (req : GetActorCheckpointRequest) (s cb : Status)
        (r : Option ActorCheckpointData),
      (effectiveStatus s cb).isOk = false →
        HandleGetActorCheckpoint req s cb r =
          some [Event.delegateCall, Event.sendReply {} (effectiveStatus s cb)]) ∧
    (∀ (req : GetActorCheckpointIDRequest) (s cb : Status)
        (r : Option ActorCheckpointIdData),
      (effectiveStatus s cb).isOk = false →
        HandleGetActorCheckpointID req s cb r =
          some [Event.delegateCall, Event.sendReply {} (effectiveStatus s cb)]) := by
  refine ⟨?_, ?_, ?_, ?_, ?_, ?_, ?_⟩
  · intro req s a htype h
    cases s <;> simp_all [HandleCreateActor, Status.isOk]
  · intro req id s cb r hnil h
    cases s <;> cases cb <;>
      simp_all [HandleGetNamedActorInfo, effectiveStatus, Status.isOk]
  · intro req s cb p h
    cases s <;> cases cb <;>
      simp_all [HandleRegisterActorInfo, effectiveStatus, Status.isOk]
  · intro req s cb p h
    cases s <;> cases cb <;>
      simp_all [HandleUpdateActorInfo, effectiveStatus, Status.isOk]
  · intro req s cb h
    cases s <;> cases cb <;>
      simp_all [HandleAddActorCheckpoint, effectiveStatus, Status.isOk]
  · intro req s cb r h
    cases s <;> cases cb <;>
      simp_all [HandleGetActorCheckpoint, effectiveStatus, Status.isOk]
  · intro req s cb r h
    cases s <;> cases cb <;>
      simp_all [HandleGetActorCheckpointID, effectiveStatus, Status.isOk]

/-- C3 amended witness: a register whose callback fails with an `ioError`
forwards that very status to the reply. -/
theorem c3_amended_failed_status_forwarded_witness :
    HandleRegisterActorInfo ⟨⟨[1], [2]⟩⟩ Status.ok (Status.ioError "disk")
        Status.ok =
      some [Event.delegateCall,
            Event.sendReply {} (effectiveStatus Status.ok (Status.ioError "disk"))] :=
  c3_amended_failed_status_forwarded.2.2.1 ⟨⟨[1], [2]⟩⟩ Status.ok
    (Status.ioError "disk") Status.ok rfl

/-- C4: a lookup that completes `ok` with an absent record makes
`HandleGetActorInfo` reply with `ok` and an empty (unset) payload —
never `notFound`. -/
theorem c4_get_actor_info_absent_is_ok :
    ∀ (req : GetActorInfoRequest),
      HandleGetActorInfo req Status.ok Status.ok none =
        [Event.delegateCall,
         Event.sendReply { actor_table_data := none } Status.ok] := by
  intro req
  rfl

/-- C5: when name resolution yields the nil `ActorID`,
`HandleGetNamedActorInfo` replies with a `notFound` status whose message
contains the requested name, and the registry delegate is never invoked. -/
theorem c5_named_actor_nil_notfound :
    ∀ (req : GetNamedActorInfoRequest) (id : ActorID) (s cb : Status)
      (r : Option ActorTableData),
      id.isNil = true →
        HandleGetNamedActorInfo req id s cb r =
          [Event.sendReply { actor_table_data := none }
            (Status.notFound (namedActorNotFoundMsg req.name))] ∧
        Event.delegateCall ∉ HandleGetNamedActorInfo req id s cb r ∧
        ∃ pre suf, namedActorNotFoundMsg req.name = pre ++ req.name ++ suf := by
  intro req id s cb r h
  refine ⟨by simp [HandleGetNamedActorInfo, h], ?_, ?_⟩
  · simp [HandleGetNamedActorInfo, h]
  · refine ⟨"Actor with name " ++ singleQuote, singleQuote ++ " was not found.", ?_⟩
    simp [namedActorNotFoundMsg, String.append_assoc]

/-- C5 witness: a concrete unresolved name gets the `notFound` reply with
the name inside the message. -/
theorem c5_named_actor_nil_notfound_witness :
    HandleGetNamedActorInfo ⟨"counter"⟩ ActorID.nilId Status.ok Status.ok none =
      [Event.sendReply { actor_table_data := none }
        (Status.notFound (namedActorNotFoundMsg "counter"))] :=
  (c5_named_actor_nil_notfound ⟨"counter"⟩ ActorID.nilId Status.ok Status.ok none
    (by decide)).1
/-- C6: for the checkpoint lookups, under the registry contract that a
completion is never `ok` with an absent result, the execution never aborts
(the `RAY_DCHECK` holds and the dereference is safe); moreover, along any
non-aborting execution, the reply's status is the completion status, and an
`ok` reply is sent only when a result payload was present and was copied
into the reply. -/
theorem c6_checkpoint_ok_implies_present :
    (∀ (req : GetActorCheckpointRequest) (s cb : Status)
        (r : Option ActorCheckpointData),
      (cb.isOk = true → r.isSome = true) →
        (HandleGetActorCheckpoint req s cb r).isSome = true) ∧
    (∀ (req : GetActorCheckpointRequest) (s cb : Status)
        (r : Option ActorCheckpointData) (t : List (Event GetActorCheckpointReply))
        (rep : GetActorCheckpointReply) (st : Status),
      HandleGetActorCheckpoint req s cb r = some t →
        Event.sendReply rep st ∈ t →
          st = effectiveStatus s cb ∧
          (st.isOk = true → ∃ d, r = some d ∧ rep.checkpoint_data = some d)) ∧
    (∀ (req : GetActorCheckpointIDRequest) (s cb : Status)
        (r : Option ActorCheckpointIdData),
      (cb.isOk = true → r.isSome = true) →
        (HandleGetActorCheckpointID req s cb r).isSome = true) ∧
    (∀ (req : GetActorCheckpointIDRequest) (s cb : Status)
        (r : Option ActorCheckpointIdData)
        (t : List (Event GetActorCheckpointIDReply))
        (rep : GetActorCheckpointIDReply) (st : Status),
      HandleGetActorCheckpointID req s cb r = some t →
        Event.sendReply rep st ∈ t →
          st = effectiveStatus s cb ∧
          (st.isOk = true → ∃ d, r = some d ∧ rep.checkpoint_id_data = some d)) := by
  refine ⟨?_, ?_, ?_, ?_⟩
  · intro req s cb r h
    cases s <;> cases cb <;> cases r <;>
      simp_all [HandleGetActorCheckpoint, Status.isOk]
  · intro req s cb r t rep st ht hmem
    cases s <;> cases cb <;> cases r <;>
      simp [HandleGetActorCheckpoint, Status.isOk] at ht <;>
        subst ht <;>
          simp_all [effectiveStatus, Status.isOk]
  · intro req s cb r h
    cases s <;> cases cb <;> cases r <;>
      simp_all [HandleGetActorCheckpointID, Status.isOk]
  · intro req s cb r t rep st ht hmem
    cases s <;> cases cb <;> cases r <;>
      simp [HandleGetActorCheckpointID, Status.isOk] at ht <;>
        subst ht <;>
          simp_all [effectiveStatus, Status.isOk]

/-- C6 witness: a concrete checkpoint lookup whose callback completes `ok`
with a present result does not abort. -/
theorem c6_checkpoint_ok_implies_present_witness :
    (HandleGetActorCheckpoint ⟨[1], [2]⟩ Status.ok Status.ok
        (some ⟨[1], [2], [3]⟩)).isSome = true :=
  c6_checkpoint_ok_implies_present.1 ⟨[1], [2]⟩ Status.ok Status.ok
    (some ⟨[1], [2], [3]⟩) (fun _ => rfl)

/-- C7: under the fatal precondition that the task is typed as an
actor-creation task, `HandleCreateActor` replies `ok` when the manager's
registration callback fires and replies with the manager's failure status
when the manager rejects synchronously; no notification is published in
either case. -/
theorem c7_create_actor_reply :
    ∀ (req : CreateActorRequest) (s : Status) (a : GcsActor),
      req.task_spec.type = TaskType.ACTOR_CREATION_TASK →
        HandleCreateActor req s a =
          some [Event.delegateCall,
                Event.sendReply {} (if s.isOk then Status.ok else s)] ∧
        (∀ t, HandleCreateActor req s a = some t → publishEvents t = []) := by
  intro req s a htype
  constructor
  · cases s <;> simp_all [HandleCreateActor, Status.isOk]
  · intro t ht
    cases s <;> simp_all [HandleCreateActor, Status.isOk, publishEvents] <;>
      simp [← ht, publishEvents]

/-- C7 witness: a concrete accepted creation replies `ok` and publishes
nothing. -/
theorem c7_create_actor_reply_witness :
    HandleCreateActor ⟨⟨TaskType.ACTOR_CREATION_TASK, ⟨[1]⟩⟩⟩ Status.ok ⟨[9]⟩ =
      some [Event.delegateCall,
            Event.sendReply {} (if Status.ok.isOk then Status.ok else Status.ok)] :=
  (c7_create_actor_reply ⟨⟨TaskType.ACTOR_CREATION_TASK, ⟨[1]⟩⟩⟩ Status.ok ⟨[9]⟩
    rfl).1

/-- C8: a name that resolves to a non-nil id whose registry lookup
completes `ok` with an absent record gets an `ok` reply with the empty
(unset) payload, exactly like `HandleGetActorInfo`. -/
theorem c8_named_actor_absent_is_ok :
    ∀ (req : GetNamedActorInfoRequest) (id : ActorID),
      id.isNil = false →
        HandleGetNamedActorInfo req id Status.ok Status.ok none =
          [Event.delegateCall,
           Event.sendReply { actor_table_data := none } Status.ok] := by
  intro req id h
  simp [HandleGetNamedActorInfo, h, Status.isOk]

/-- C8 witness: a concrete non-nil resolved id with an `ok`-but-absent
lookup yields the `ok`/empty reply. -/
theorem c8_named_actor_absent_is_ok_witness :
    HandleGetNamedActorInfo ⟨"counter"⟩ ⟨[1]⟩ Status.ok Status.ok none =
      [Event.delegateCall,
       Event.sendReply { actor_table_data := none } Status.ok] :=
  c8_named_actor_absent_is_ok ⟨"counter"⟩ ⟨[1]⟩ (by decide)

/-- C9: `HandleGetActorInfo` and `HandleGetAllActorInfo` always reply with
status `ok`, on every execution; in particular when the asynchronous call
fails immediately, the failed status is discarded and the reply carries
`ok` with an empty payload / empty record list. -/
theorem c9_get_info_always_replies_ok :
    (∀ (req : GetActorInfoRequest) (s cb : Status) (r : Option ActorTableData)
        (rep : GetActorInfoReply) (st : Status),
      (rep, st) ∈ replyEvents (HandleGetActorInfo req s cb r) → st = Status.ok) ∧
    (∀ (req : GetActorInfoRequest) (s : Status) (cb : Status)
        (r : Option ActorTableData),
      s.isOk = false →
        HandleGetActorInfo req s cb r =
          [Event.delegateCall,
           Event.sendReply { actor_table_data := none } Status.ok]) ∧
    (∀ (req : GetAllActorInfoRequest) (s cb : Status) (r : List ActorTableData)
        (rep : GetAllActorInfoReply) (st : Status),
      (rep, st) ∈ replyEvents (HandleGetAllActorInfo req s cb r) → st = Status.ok) ∧
    (∀ (req : GetAllActorInfoRequest) (s : Status) (cb : Status)
        (r : List ActorTableData),
      s.isOk = false →
        HandleGetAllActorInfo req s cb r =
          [Event.delegateCall,
           Event.sendReply { actor_table_data := [] } Status.ok]) := by
  refine ⟨?_, ?_, ?_, ?_⟩
  · intro req s cb r rep st hmem
    cases s <;> cases r <;>
      simp_all [HandleGetActorInfo, replyEvents, Status.isOk]
  · intro req s cb r h
    cases s <;> simp_all [HandleGetActorInfo, Status.isOk]
  · intro req s cb r rep st hmem
    cases s <;>
      simp_all [HandleGetAllActorInfo, replyEvents, Status.isOk]
  · intro req s cb r h
    cases s <;> simp_all [HandleGetAllActorInfo, Status.isOk]

/-- C9 witness: a concrete immediately-failing lookup still replies `ok`
with the empty payload. -/
theorem c9_get_info_always_replies_ok_witness :
    HandleGetActorInfo ⟨[1]⟩ (Status.ioError "registry down") Status.ok none =
      [Event.delegateCall,
       Event.sendReply { actor_table_data := none } Status.ok] :=
  c9_get_info_always_replies_ok.2.1 ⟨[1]⟩ (Status.ioError "registry down")
    Status.ok none rfl

/-- C10: for an accepted creation the reply is independent of the actor
handle passed to the registration callback — the handle is ignored and the
reply message stays at its default, with no field populated from it. -/
theorem c10_create_actor_ignores_handle :
    ∀ (req : CreateActorRequest) (s : Status) (a a2 : GcsActor),
      HandleCreateActor req s a = HandleCreateActor req s a2 ∧
      (req.task_spec.type = TaskType.ACTOR_CREATION_TASK →
        HandleCreateActor req Status.ok a =
          some [Event.delegateCall,
                Event.sendReply ({} : CreateActorReply) Status.ok]) := by
  intro req s a a2
  constructor
  · rfl
  · intro htype
    simp [HandleCreateActor, htype, Status.isOk]

/-- C10 witness: two different handles give the same execution, and the
accepted creation's reply is the default message with status `ok`. -/
theorem c10_create_actor_ignores_handle_witness :
    HandleCreateActor ⟨⟨TaskType.ACTOR_CREATION_TASK, ⟨[1]⟩⟩⟩ Status.ok ⟨[9]⟩ =
      HandleCreateActor ⟨⟨TaskType.ACTOR_CREATION_TASK, ⟨[1]⟩⟩⟩ Status.ok ⟨[7]⟩ :=
  (c10_create_actor_ignores_handle ⟨⟨TaskType.ACTOR_CREATION_TASK, ⟨[1]⟩⟩⟩
    Status.ok ⟨[9]⟩ ⟨[7]⟩).1
